import Mathlib

/-!
# Verification of the IPC server (`discord/ext/ipc/server.py`)

A shallow embedding of the connection/protocol engine of the IPC server:
endpoint registration and the registry merge (`route`, `Server.route`,
`Server.update_endpoints`), shared-secret authentication, the per-message
request/response state machine of `Server.handle_accept`, the discovery
listener `Server.handle_multicast`, and the lifecycle pair
`Server.setup` / `Server.destroy`.

Python dictionaries are modelled as association lists with first-occurrence
lookup and in-place update (Python dicts have unique keys, which this model
preserves for dictionaries built through `dictSet`).  JSON scalar values are
modelled by `JVal`; the constructor `JVal.pyObj` stands for any value that
`json.dumps` rejects (for example a discord.py object placed in a handler's
return mapping) — the claims under verification only distinguish
serializable values from non-serializable ones.
-/

set_option autoImplicit false

/-- A JSON-ish value travelling in envelopes.  `pyObj` is a Python object
that is not JSON serializable (`json.dumps` raises
`TypeError("Object of type ... is not JSON serializable")` on it). -/
inductive JVal where
  | null
  | bool (b : Bool)
  | num (n : Int)
  | str (s : String)
  | pyObj (tag : String)
deriving DecidableEq, Repr

/-- Python truthiness of a `JVal` (JSON `null`/`false`/`0`/`""` are falsy;
decoded objects and a Python object are truthy). -/
def JVal.truthy : JVal → Bool
  | .null => false
  | .bool b => b
  | .num n => !(n == 0)
  | .str s => !(s == "")
  | .pyObj _ => true

/-- Whether `json.dumps` accepts the value. -/
def JVal.serializable : JVal → Bool
  | .pyObj _ => false
  | _ => true

/-- Python `None` is falsy; `opt.truthy` is the truthiness of an optional
value (`request.get(k)` returns `None` for a missing key). -/
def optTruthy : Option JVal → Bool
  | none => false
  | some v => v.truthy

/-- A Python dict with `String` keys, as an association list. -/
abbrev Dict (α : Type) : Type := List (String × α)

/-- Lookup `d.get(k)` / `d[k]`: first entry whose key is `k`. -/
def dictGet {α : Type} : Dict α → String → Option α
  | [], _ => none
  | (k0, v) :: rest, k => if k0 = k then some v else dictGet rest k

/-- Assignment `d[k] = v`: replace the value at `k` in place, or append a new entry. -/
def dictSet {α : Type} : Dict α → String → α → Dict α
  | [], k, v => [(k, v)]
  | (k0, v0) :: rest, k, v =>
      if k0 = k then (k0, v) :: rest else (k0, v0) :: dictSet rest k v

/-- The value the Python dict literal `{**a, **b}` associates with a key
coming from `b`: the last occurrence in `b` wins (for a genuine Python dict
`b` the keys are unique, and this is just lookup). -/
def lookupLast {α : Type} : Dict α → String → Option α
  | [], _ => none
  | (k0, v) :: rest, k =>
      match lookupLast rest k with
      | some w => some w
      | none => if k0 = k then some v else none

/-- The Python dict merge `{**a, **b}`: start from `a` and assign every
entry of `b` in order (later assignments overwrite earlier values). -/
def pyMerge {α : Type} (a : Dict α) : Dict α → Dict α
  | [] => a
  | (k, v) :: rest => pyMerge (dictSet a k v) rest

/-- Whether `json.dumps` accepts a response dict: iff every value is serializable. -/
def dictSerializable (d : Dict JVal) : Bool :=
  d.all (fun p => p.2.serializable)

/-! ## Authentication guard

`server.py` line 167 (and line 258 for the discovery listener):

`if not headers or headers.get("Authorization") != self.secret_key:`

`headers` is `request.get("headers")` — `none` models a missing key.
`secret_key : str = None` in the constructor, so the configured secret is an
`Option String`.  `headers.get("Authorization")` yields Python `None` both
for a missing key and for a JSON `null` value, and Python `None == None` is
`True` — so with an unset secret a request lacking the header authenticates.
-/

/-- Python `==` between `headers.get("Authorization")` (a decoded JSON value
or `None`) and `self.secret_key` (a `str` or `None`). -/
def pyEqSecret : Option JVal → Option String → Bool
  | none, none => true
  | some .null, none => true
  | some (.str a), some s => a == s
  | _, _ => false

/-- Truthiness of the `headers` object: missing (`None`) or an empty dict is
falsy. -/
def headersTruthy : Option (Dict JVal) → Bool
  | none => false
  | some l => !l.isEmpty

/-- The value `headers.get("Authorization")`, guarded by presence of `headers`. -/
def headersAuthValue : Option (Dict JVal) → Option JVal
  | none => none
  | some l => dictGet l "Authorization"

/-- The authentication guard: the request passes iff
`headers` is truthy and `headers.get("Authorization") == self.secret_key`
(the negation of the condition on line 167 / 258). -/
def authOk (headers : Option (Dict JVal)) (secret : Option String) : Bool :=
  headersTruthy headers && pyEqSecret (headersAuthValue headers) secret

/-- The spec's own wording of successful authentication: `headers` contains
the key `Authorization` whose value equals the secret string exactly. -/
def headersContainSecret (headers : Option (Dict JVal)) (s : String) : Bool :=
  match headers with
  | none => false
  | some l => decide (dictGet l "Authorization" = some (JVal.str s))

/-! ## Request envelope and handler capability -/

/-- One decoded inbound message (`request = message.json()`), projected onto
the fields `handle_accept` reads: `request.get("endpoint")`,
`request.get("headers")`, and the `data` payload handed to the handler
through the `IpcServerResponse` view. -/
structure IpcRequest where
  endpoint : Option JVal
  headers : Option (Dict JVal)
  data : Dict JVal
deriving DecidableEq, Repr

/-- What a handler invocation does: return a response mapping (possibly
holding non-serializable values) or raise an exception whose `str` is
`msg`.  The construction of the argument tuple (the `IpcServerResponse`
view and the optional cog instance found via `__qualname__`) selects how
the coroutine is called, not which result comes back, so the capability is
modelled as a function of the request's `data` payload. -/
inductive HRes where
  | ok (d : Dict JVal)
  | exn (msg : String)

/-- An endpoint handler, as stored in `self.endpoints`. -/
def HandlerFn : Type := Dict JVal → HRes

/-- Truthiness of the `endpoint` field (`not endpoint`). -/
def endpointTruthy : Option JVal → Bool
  | none => false
  | some v => v.truthy

/-- Membership `endpoint in self.endpoints` / `self.endpoints[endpoint]`: dict keys
are strings, so a non-string endpoint value is never a member. -/
def epLookup (endpoints : Dict HandlerFn) : Option JVal → Option HandlerFn
  | some (.str name) => dictGet endpoints name
  | _ => none

/-! ## The per-message state machine of `handle_accept` (lines 159-234) -/

/-- Response text of the 403 branch (line 170, lowercase `invalid`). -/
def unauthorizedResponseText : String :=
  "Received unauthorized request (invalid or no token provided)."

/-- Text of the exception dispatched on `ipc_error` for the 403 branch
(line 168, capital `Invalid`). -/
def unauthorizedDispatchText : String :=
  "Received unauthorized request (Invalid or no token provided)."

/-- Text used both for the `ipc_error` dispatch and the response of the 400
branch (lines 175-177). -/
def invalidEndpointText : String :=
  "Received invalid request (invalid or no endpoint given)."

/-- The fallback error string of lines 218-222: three adjacent Python
string literals, concatenated without separators. -/
def notSerializableText : String :=
  "IPC route returned values which are not able to be sent over sockets." ++
  "If you are trying to send a discord.py object," ++
  "please only send the data you need."

/-- One `self.bot.dispatch("ipc_error", endpoint, Exception(msg))` event:
the raw `endpoint` value and the exception's message. -/
structure ErrorEvent where
  endpoint : Option JVal
  msg : String
deriving DecidableEq, Repr

/-- The authenticate/route/invoke phase (lines 167-209): produces the
`response` dict, the `ipc_error` events dispatched so far, and whether a
handler was invoked. -/
def routePhase (endpoints : Dict HandlerFn) (secret : Option String)
    (req : IpcRequest) : Dict JVal × List ErrorEvent × Bool :=
  if authOk req.headers secret = false then
    ([("error", .str unauthorizedResponseText), ("code", .num 403)],
     [⟨req.endpoint, unauthorizedDispatchText⟩], false)
  else
    match (if endpointTruthy req.endpoint then epLookup endpoints req.endpoint else none) with
    | none =>
        ([("error", .str invalidEndpointText), ("code", .num 400)],
         [⟨req.endpoint, invalidEndpointText⟩], false)
    | some h =>
        match h req.data with
        | .ok d => (d, [], true)
        | .exn m => ([("error", .str m), ("code", .num 500)], [⟨req.endpoint, m⟩], true)

/-- Lines 212-213: `if not response.get("code"): response["code"] = 200` —
a missing or falsy `code` is overwritten with 200 before transmission. -/
def finalizeCode (response : Dict JVal) : Dict JVal :=
  if optTruthy (dictGet response "code") = false
  then dictSet response "code" (.num 200) else response

/-- The encode/send phase (lines 211-234): default a falsy `code` to 200,
then `send_json`.  If the payload is not serializable, dispatch
`ipc_error`, send the fallback `{error, code: 500}` instead, and raise
`JSONEncodeError` — which makes the outcome fatal to the message loop.
Returns the dicts actually transmitted, the events dispatched here, and
the fatal flag. -/
def sendPhase (endpoint : Option JVal) (response : Dict JVal) :
    List (Dict JVal) × List ErrorEvent × Bool :=
  let finalized := finalizeCode response
  if dictSerializable finalized then ([finalized], [], false)
  else
    ([[("error", .str notSerializableText), ("code", .num 500)]],
     [⟨endpoint, notSerializableText⟩], true)

/-- The observable outcome of handling one inbound message. -/
structure MsgOutcome where
  /-- Response dicts transmitted over the websocket for this message. -/
  sent : List (Dict JVal)
  /-- `ipc_error` events dispatched while handling this message. -/
  events : List ErrorEvent
  /-- Whether the endpoint's handler was invoked. -/
  invoked : Bool
  /-- Whether handling raised out of the loop body (`JSONEncodeError`),
  terminating the connection's message loop. -/
  fatal : Bool

/-- Handling of one message of the `async for message in websocket` loop of
`handle_accept`. -/
def processMessage (endpoints : Dict HandlerFn) (secret : Option String)
    (req : IpcRequest) : MsgOutcome :=
  match routePhase endpoints secret req with
  | (response, evs, inv) =>
      match sendPhase req.endpoint response with
      | (sent, evs2, fatal) =>
          ⟨sent, evs ++ evs2, inv, fatal⟩

/-- The whole message loop of one connection: messages are handled strictly
in arrival order, and a fatal outcome terminates the loop (no further
message of the connection is processed). -/
def runLoop (endpoints : Dict HandlerFn) (secret : Option String) :
    List IpcRequest → List MsgOutcome
  | [] => []
  | req :: rest =>
      let o := processMessage endpoints secret req
      if o.fatal then [o] else o :: runLoop endpoints secret rest

/-! ## The discovery listener `handle_multicast` (lines 251-268) -/

/-- The response of `handle_multicast` to one message: the same guard as
the primary listener, then either the 403 error or the connection-success
payload carrying the primary port.  No `self.bot.dispatch` call occurs in
`handle_multicast`, so the event list of an outcome is always empty. -/
def multicastReply (secret : Option String) (port : Int)
    (headers : Option (Dict JVal)) : Dict JVal :=
  if authOk headers secret = false then
    [("error", .str "Invalid or no token provided."), ("code", .num 403)]
  else
    [("message", .str "Connection success"), ("port", .num port), ("code", .num 200)]

/-- One message of the multicast loop: the reply sent, paired with the
`ipc_error` events dispatched while producing it (none — the 403 branch of
`handle_multicast` only builds the response). -/
def handleMulticastMessage (secret : Option String) (port : Int)
    (headers : Option (Dict JVal)) : Dict JVal × List ErrorEvent :=
  (multicastReply secret port headers, [])

/-! ## Endpoint registry and the merge `update_endpoints` (lines 133-140)

`Server.ROUTES` is a class attribute shared by all server instances; the
module-level decorator `route` writes into it
(`Server.ROUTES[name or func.__name__] = func`).  `self.endpoints` is a
per-instance dict filled by `Server.route`.  `update_endpoints` executes

  `self.endpoints = {**self.endpoints, **self.ROUTES}`
  `self.ROUTES = {}`

Two Python facts matter here and are mirrored by the model:
in `{**a, **b}` the entries of `b` are assigned last, so on a key
collision the value from `b` (the class-level `ROUTES`) wins; and the
assignment `self.ROUTES = {}` creates an *instance* attribute that shadows
the class attribute for this instance only — `Server.ROUTES` itself is not
modified, which the model expresses by returning the class table unchanged.
The registry is kept polymorphic in the handler type so that resolution
facts can be stated for comparable handler tags.
-/

/-- The per-instance registry state: the instance's `ROUTES` attribute
(`none` while only the class attribute exists) and its `endpoints` dict. -/
structure PyServerReg (α : Type) where
  instRoutesAttr : Option (Dict α)
  endpoints : Dict α
deriving DecidableEq, Repr

/-- Python attribute lookup `self.ROUTES`: the instance attribute if set,
otherwise the class attribute. -/
def readROUTES {α : Type} (classRoutes : Dict α) (s : PyServerReg α) : Dict α :=
  (s.instRoutesAttr).getD classRoutes

/-- The merge `Server.update_endpoints`, returning the (unchanged) class-level
`Server.ROUTES` together with the new instance state. -/
def update_endpoints {α : Type} (classRoutes : Dict α) (s : PyServerReg α) :
    Dict α × PyServerReg α :=
  (classRoutes,
   { instRoutesAttr := some [],
     endpoints := pyMerge s.endpoints (readROUTES classRoutes s) })

/-- The module-level decorator `route(name)`: insert into the class-level
table (`Server.ROUTES[name or func.__name__] = func`). -/
def routeDecorator {α : Type} (classRoutes : Dict α) (name : String) (f : α) :
    Dict α :=
  dictSet classRoutes name f

/-! ## Lifecycle: `start`, `setup` and `destroy` (lines 93-109, 270-301)

`start` schedules `setup(self._multicast_server, self.multicast_port)`
(when `do_multicast`) and then `setup(self._server, self.port)`.  Every
call of `setup` assigns *the same* attributes `self._runner` and
`self._webserver`; the second assignment overwrites the first, so after
both tasks ran the attributes refer to a single application — the one whose
`setup` assigned last (with tasks completing in creation order, the
primary one).  `destroy` awaits `self._runner.cleanup()` and then, with no
exception handling in between, `self._webserver.stop()` if that attribute
is truthy. -/

/-- Which listener an application/transport belongs to. -/
inductive Listener where
  | primary
  | discovery
deriving DecidableEq, Repr

/-- A release action `destroy` can perform. -/
inductive ReleaseOp where
  | cleanupRunner (l : Listener)
  | stopWeb (l : Listener)
deriving DecidableEq, Repr

/-- The `setup` calls `start` schedules, in creation order: the multicast
application first when `do_multicast`, then the primary application
(lines 102-107). -/
def setupCalls (doMulticast : Bool) : List Listener :=
  (if doMulticast then [Listener.discovery] else []) ++ [Listener.primary]

/-- Each `setup` call assigns `self._runner` and `self._webserver`,
overwriting whatever a previous call stored there. -/
def assignAttrs : Option Listener → List Listener → Option Listener
  | a, [] => a
  | _, l :: rest => assignAttrs (some l) rest

/-- The listener `self._runner`/`self._webserver` refer to after `start`
finished and the scheduled `setup` tasks ran in creation order. -/
def attrsAfterStart (doMulticast : Bool) : Option Listener :=
  assignAttrs none (setupCalls doMulticast)

/-- Teardown `Server.destroy`: attempt `self._runner.cleanup()`; when it raises
(`cleanupRaises`), the exception propagates and nothing more is attempted.
Otherwise stop `self._webserver` when the attribute is truthy.  Returns the
release operations attempted, in order, and whether `destroy` raised. -/
def destroy (attrs : Listener) (webserverSet : Bool) (cleanupRaises : Bool) :
    List ReleaseOp × Bool :=
  if cleanupRaises then ([ReleaseOp.cleanupRunner attrs], true)
  else
    (ReleaseOp.cleanupRunner attrs ::
      (if webserverSet then [ReleaseOp.stopWeb attrs] else []), false)

/-- The listener whose transport resources a release operation touches. -/
def ReleaseOp.listener : ReleaseOp → Listener
  | .cleanupRunner l => l
  | .stopWeb l => l

/-! ## Concrete endpoints used to exercise the model

The spec's concrete scenario: secret `"s3cr3t"`, an endpoint `"ping"`
returning `{"pong": true}`; plus a handler that raises and a handler whose
return value is not serializable. -/

/-- Handler of the endpoint `"ping"`: returns `{"pong": True}`. -/
def pingHandler : HandlerFn := fun _ => HRes.ok [("pong", JVal.bool true)]

/-- Handler of the endpoint `"boom"`: raises `Exception("boom")`. -/
def boomHandler : HandlerFn := fun _ => HRes.exn "boom"

/-- Handler of the endpoint `"bad"`: returns a mapping holding a discord.py
object, which `json.dumps` cannot encode. -/
def badHandler : HandlerFn := fun _ => HRes.ok [("obj", JVal.pyObj "discord.Member")]

/-- An effective registry holding the three demo endpoints. -/
def demoEndpoints : Dict HandlerFn :=
  [("ping", pingHandler), ("boom", boomHandler), ("bad", badHandler)]

/-! ## Dictionary lemmas -/

theorem dictGet_dictSet_self {α : Type} (d : Dict α) (k : String) (v : α) :
    dictGet (dictSet d k v) k = some v := by
  induction d with
  | nil => simp [dictGet, dictSet]
  | cons p rest ih =>
      obtain ⟨k0, v0⟩ := p
      by_cases h : k0 = k <;> simp [dictGet, dictSet, h, ih]

theorem dictGet_dictSet_ne {α : Type} (d : Dict α) (k k' : String) (v : α)
    (h : k' ≠ k) : dictGet (dictSet d k v) k' = dictGet d k' := by
  induction d with
  | nil => simp [dictGet, dictSet, Ne.symm h]
  | cons p rest ih =>
      obtain ⟨k0, v0⟩ := p
      by_cases h0 : k0 = k <;> simp [dictGet, dictSet, h0, Ne.symm h, ih]

theorem dictGet_pyMerge {α : Type} (b a : Dict α) (k : String) :
    dictGet (pyMerge a b) k =
      match lookupLast b k with
      | some w => some w
      | none => dictGet a k := by
  induction b generalizing a with
  | nil => simp [pyMerge, lookupLast]
  | cons p rest ih =>
      obtain ⟨k0, v0⟩ := p
      rw [pyMerge, ih]
      cases hll : lookupLast rest k with
      | some w => simp [lookupLast, hll]
      | none =>
          by_cases h : k0 = k
          · subst h
            simp [lookupLast, hll, dictGet_dictSet_self]
          · simp [lookupLast, hll, h, dictGet_dictSet_ne a k0 k v0 (fun hk => h hk.symm)]

theorem lookupLast_eq_none_of_not_mem {α : Type} (d : Dict α) (k : String)
    (h : k ∉ d.map Prod.fst) : lookupLast d k = none := by
  induction d with
  | nil => rfl
  | cons p rest ih =>
      obtain ⟨k0, v0⟩ := p
      simp only [List.map_cons, List.mem_cons] at h
      push_neg at h
      rw [lookupLast, ih h.2]
      simp [Ne.symm h.1]

theorem lookupLast_eq_dictGet {α : Type} (d : Dict α) (k : String)
    (h : (d.map Prod.fst).Nodup) : lookupLast d k = dictGet d k := by
  induction d with
  | nil => rfl
  | cons p rest ih =>
      obtain ⟨k0, v0⟩ := p
      simp only [List.map_cons, List.nodup_cons] at h
      by_cases hk : k0 = k
      · subst hk
        rw [lookupLast, lookupLast_eq_none_of_not_mem rest k0 h.1]
        simp [dictGet]
      · rw [lookupLast, dictGet, if_neg hk, ← ih h.2]
        cases lookupLast rest k <;> simp [hk]

/-! ## Claims about the registry merge -/

/-- C2 counterexample: with the instance table holding `a ↦ 1` and the
process-wide table holding `a ↦ 2`, the merge
`self.endpoints = {**self.endpoints, **self.ROUTES}` resolves `a` to the
process-wide handler `2`, not the instance-registered handler `1` — the
later `**self.ROUTES` unpacking wins, so the claim "an entry registered on
the instance takes precedence" is false. -/
theorem C2_counterexample :
    dictGet (update_endpoints [("a", 2)] (⟨none, [("a", 1)]⟩ : PyServerReg Nat)).2.endpoints "a"
      = some 2 ∧
    dictGet (update_endpoints [("a", 2)] (⟨none, [("a", 1)]⟩ : PyServerReg Nat)).2.endpoints "a"
      ≠ some 1 := by
  constructor <;> decide

/-- C2 (amended): in the merged effective table, an entry of the
process-wide `Server.ROUTES` table takes precedence over an instance entry
with the same endpoint name — for every name present in the process-wide
table (with its unique dict keys), resolving that name after
`update_endpoints` yields the process-wide handler. -/
theorem C2_merge_process_wide_wins {α : Type} (classRoutes : Dict α)
    (s : PyServerReg α) (k : String) (v : α)
    (hnd : ((readROUTES classRoutes s).map Prod.fst).Nodup)
    (hv : dictGet (readROUTES classRoutes s) k = some v) :
    dictGet (update_endpoints classRoutes s).2.endpoints k = some v := by
  show dictGet (pyMerge s.endpoints (readROUTES classRoutes s)) k = some v
  rw [dictGet_pyMerge, lookupLast_eq_dictGet _ _ hnd, hv]

/-- Witness for `C2_merge_process_wide_wins` at the counterexample's input. -/
theorem C2_merge_process_wide_wins_witness :
    ((([("a", 2)] : Dict Nat)).map Prod.fst).Nodup ∧
    dictGet ([("a", 2)] : Dict Nat) "a" = some 2 ∧
    dictGet (update_endpoints [("a", 2)] (⟨none, [("a", 1)]⟩ : PyServerReg Nat)).2.endpoints "a"
      = some 2 :=
  ⟨by decide, by decide,
   C2_merge_process_wide_wins [("a", 2)] ⟨none, [("a", 1)]⟩ "a" 2 (by decide) (by decide)⟩

/-- C9 counterexample: `self.ROUTES = {}` only creates an instance
attribute shadowing the class attribute `Server.ROUTES`; the class-level
table returned by the first instance's merge still holds `r ↦ 7`, and a
second, fresh server instance that runs the merge imports `r` into its
effective table — the module-registered endpoint leaks into the second
instance, so "the process-wide route table is cleared, so endpoints ...
cannot leak into ... a second, unrelated server instance" is false. -/
theorem C9_counterexample :
    (update_endpoints
        ((update_endpoints [("r", 7)] (⟨none, []⟩ : PyServerReg Nat)).1)
        (⟨none, []⟩ : PyServerReg Nat)).2.endpoints = [("r", 7)] ∧
    dictGet (update_endpoints
        ((update_endpoints [("r", 7)] (⟨none, []⟩ : PyServerReg Nat)).1)
        (⟨none, []⟩ : PyServerReg Nat)).2.endpoints "r" = some 7 := by
  constructor <;> decide

/-- C9 (amended): after `update_endpoints` runs for a server instance, the
class-level process-wide table is returned unchanged (only an empty
instance-level `ROUTES` attribute shadows it), invoking the merge again on
the same instance is a no-op on its effective table, and a second, fresh
server instance that runs the merge still imports the process-wide table
into its effective endpoints. -/
theorem C9_shadow_idempotent_leak {α : Type} (classRoutes : Dict α)
    (s : PyServerReg α) :
    (update_endpoints classRoutes s).1 = classRoutes ∧
    (update_endpoints (update_endpoints classRoutes s).1
        (update_endpoints classRoutes s).2).2.endpoints
      = (update_endpoints classRoutes s).2.endpoints ∧
    ∀ e2 : Dict α,
      (update_endpoints (update_endpoints classRoutes s).1
          (⟨none, e2⟩ : PyServerReg α)).2.endpoints = pyMerge e2 classRoutes :=
  ⟨rfl, rfl, fun _ => rfl⟩

/-! ## Claims about authentication (primary listener) -/

theorem pyEqSecret_some (o : Option JVal) (s : String) :
    pyEqSecret o (some s) = decide (o = some (JVal.str s)) := by
  cases o with
  | none => simp [pyEqSecret]
  | some v =>
      cases v with
      | str a =>
          by_cases h : a = s
          · simp [pyEqSecret, h]
          · simp [pyEqSecret, h]
      | null => simp [pyEqSecret]
      | bool b => simp [pyEqSecret]
      | num n => simp [pyEqSecret]
      | pyObj t => simp [pyEqSecret]

theorem authOk_eq_headersContainSecret (headers : Option (Dict JVal)) (s : String) :
    authOk headers (some s) = headersContainSecret headers s := by
  cases headers with
  | none => rfl
  | some l =>
      cases l with
      | nil => rfl
      | cons p rest =>
          rw [authOk, headersContainSecret]
          rw [show headersTruthy (some (p :: rest)) = true from rfl]
          rw [show headersAuthValue (some (p :: rest)) = dictGet (p :: rest) "Authorization" from rfl]
          rw [pyEqSecret_some]
          simp

/-- The spec's concrete successful request: `"ping"` with the right secret. -/
def goodPingReq : IpcRequest :=
  ⟨some (.str "ping"), some [("Authorization", .str "s3cr3t")], []⟩

/-- The spec's concrete rejected request: `"ping"` with the wrong secret. -/
def wrongAuthReq : IpcRequest :=
  ⟨some (.str "ping"), some [("Authorization", .str "wrong")], []⟩

/-- C1 (amended): when a `secret_key` is actually configured (not `None`),
authentication succeeds exactly when the headers mapping contains the key
`Authorization` with the secret as value, and every message failing that
check is answered with the 403 response, with no handler invoked, no
fatal outcome, and the error event dispatched.  (The unamended claim fails
for the default `secret_key = None`, see the counterexample.) -/
theorem C1_auth_contract (s : String) (endpoints : Dict HandlerFn) (req : IpcRequest) :
    authOk req.headers (some s) = headersContainSecret req.headers s ∧
    (authOk req.headers (some s) = false →
      processMessage endpoints (some s) req =
        ⟨[[("error", JVal.str unauthorizedResponseText), ("code", JVal.num 403)]],
         [⟨req.endpoint, unauthorizedDispatchText⟩], false, false⟩) := by
  refine ⟨authOk_eq_headersContainSecret req.headers s, fun h => ?_⟩
  unfold processMessage routePhase
  rw [h]
  rfl

/-- Witness for `C1_auth_contract`: the spec's wrong-secret scenario. -/
theorem C1_auth_contract_witness :
    authOk wrongAuthReq.headers (some "s3cr3t") = false ∧
    processMessage demoEndpoints (some "s3cr3t") wrongAuthReq =
      ⟨[[("error", JVal.str unauthorizedResponseText), ("code", JVal.num 403)]],
       [⟨some (.str "ping"), unauthorizedDispatchText⟩], false, false⟩ :=
  ⟨by decide, (C1_auth_contract "s3cr3t" demoEndpoints wrongAuthReq).2 (by decide)⟩

/-- C1 counterexample: with the constructor's default `secret_key = None`,
a request whose non-empty headers *lack* the key `Authorization`
authenticates (`headers.get("Authorization")` is `None` and
`None == None`), the handler runs and the response code is 200 — not the
403 the claim requires for headers lacking the key. -/
theorem C1_counterexample :
    headersContainSecret (some [("X", JVal.str "y")]) "anything" = false ∧
    (processMessage demoEndpoints none
        ⟨some (.str "ping"), some [("X", JVal.str "y")], []⟩).invoked = true ∧
    (processMessage demoEndpoints none
        ⟨some (.str "ping"), some [("X", JVal.str "y")], []⟩).sent =
      [[("pong", JVal.bool true), ("code", JVal.num 200)]] :=
  ⟨by decide, rfl, rfl⟩

/-! ## Claims about routing, invocation and transmission -/

/-- C5: for every authenticated request whose `endpoint` field is missing,
empty, or not resolvable in the effective registry, the server sends the
400 response, dispatches the error event, invokes no handler, and the
connection stays usable. -/
theorem C5_unknown_endpoint (endpoints : Dict HandlerFn) (secret : Option String)
    (req : IpcRequest)
    (hauth : authOk req.headers secret = true)
    (hbad : req.endpoint = none ∨ req.endpoint = some (JVal.str "") ∨
      epLookup endpoints req.endpoint = none) :
    processMessage endpoints secret req =
      ⟨[[("error", JVal.str invalidEndpointText), ("code", JVal.num 400)]],
       [⟨req.endpoint, invalidEndpointText⟩], false, false⟩ := by
  have hroute : (if endpointTruthy req.endpoint then epLookup endpoints req.endpoint
      else none) = none := by
    rcases hbad with h | h | h
    · rw [h]; rfl
    · rw [h]; rfl
    · rw [h, ite_self]
  unfold processMessage routePhase
  rw [hauth, hroute]
  rfl

/-- Witness for `C5_unknown_endpoint`: an authenticated request for the
unregistered endpoint `"missing"`. -/
theorem C5_unknown_endpoint_witness :
    authOk (some [("Authorization", JVal.str "s3cr3t")]) (some "s3cr3t") = true ∧
    epLookup demoEndpoints (some (JVal.str "missing")) = none ∧
    processMessage demoEndpoints (some "s3cr3t")
        ⟨some (.str "missing"), some [("Authorization", .str "s3cr3t")], []⟩ =
      ⟨[[("error", JVal.str invalidEndpointText), ("code", JVal.num 400)]],
       [⟨some (.str "missing"), invalidEndpointText⟩], false, false⟩ :=
  ⟨by decide, rfl,
   C5_unknown_endpoint demoEndpoints (some "s3cr3t") _ (by decide) (Or.inr (Or.inr rfl))⟩

/-- C4: an authenticated request to a registered endpoint whose handler
raises yields the 500 response carrying `str(exception)` as its `error`
field, dispatches the error event, is non-fatal, and the loop goes on to
process the subsequent messages of the same connection. -/
theorem C4_handler_exception (endpoints : Dict HandlerFn) (secret : Option String)
    (req : IpcRequest) (f : HandlerFn) (m : String) (rest : List IpcRequest)
    (hauth : authOk req.headers secret = true)
    (htru : endpointTruthy req.endpoint = true)
    (hfind : epLookup endpoints req.endpoint = some f)
    (hrun : f req.data = HRes.exn m) :
    processMessage endpoints secret req =
      ⟨[[("error", JVal.str m), ("code", JVal.num 500)]],
       [⟨req.endpoint, m⟩], true, false⟩ ∧
    runLoop endpoints secret (req :: rest) =
      processMessage endpoints secret req :: runLoop endpoints secret rest := by
  have hmain : processMessage endpoints secret req =
      ⟨[[("error", JVal.str m), ("code", JVal.num 500)]],
       [⟨req.endpoint, m⟩], true, false⟩ := by
    unfold processMessage routePhase
    rw [hauth, htru, hfind,
      if_neg (show ¬(true = false) by decide), if_pos (show true = true from rfl)]
    dsimp only
    rw [hrun]
    rfl
  refine ⟨hmain, ?_⟩
  rw [runLoop, hmain]
  rfl

/-- Witness for `C4_handler_exception`: the `"boom"` endpoint raising
`Exception("boom")` followed by a still-processed `"ping"` request. -/
theorem C4_handler_exception_witness :
    authOk (some [("Authorization", JVal.str "s3cr3t")]) (some "s3cr3t") = true ∧
    epLookup demoEndpoints (some (JVal.str "boom")) = some boomHandler ∧
    boomHandler [] = HRes.exn "boom" ∧
    (processMessage demoEndpoints (some "s3cr3t")
        ⟨some (.str "boom"), some [("Authorization", .str "s3cr3t")], []⟩ =
      ⟨[[("error", JVal.str "boom"), ("code", JVal.num 500)]],
       [⟨some (.str "boom"), "boom"⟩], true, false⟩ ∧
     runLoop demoEndpoints (some "s3cr3t")
        (⟨some (.str "boom"), some [("Authorization", .str "s3cr3t")], []⟩ :: [goodPingReq]) =
      processMessage demoEndpoints (some "s3cr3t")
          ⟨some (.str "boom"), some [("Authorization", .str "s3cr3t")], []⟩ ::
        runLoop demoEndpoints (some "s3cr3t") [goodPingReq]) :=
  ⟨by decide, rfl, rfl,
   C4_handler_exception demoEndpoints (some "s3cr3t") _ boomHandler "boom" [goodPingReq]
     (by decide) (by decide) rfl rfl⟩

/-- C3: when the handler of an authenticated, routed request returns a
mapping whose `code` key is missing or falsy, the transmitted response is
that mapping with `code` set to 200, its `code` lookup yields 200, and
every other key keeps the value the handler returned (given the finalized
mapping is serializable, so it is what gets transmitted). -/
theorem C3_default_code (endpoints : Dict HandlerFn) (secret : Option String)
    (req : IpcRequest) (f : HandlerFn) (d : Dict JVal)
    (hauth : authOk req.headers secret = true)
    (htru : endpointTruthy req.endpoint = true)
    (hfind : epLookup endpoints req.endpoint = some f)
    (hrun : f req.data = HRes.ok d)
    (hcode : optTruthy (dictGet d "code") = false)
    (hser : dictSerializable (dictSet d "code" (JVal.num 200)) = true) :
    (processMessage endpoints secret req).sent = [dictSet d "code" (JVal.num 200)] ∧
    dictGet (dictSet d "code" (JVal.num 200)) "code" = some (JVal.num 200) ∧
    ∀ k : String, k ≠ "code" →
      dictGet (dictSet d "code" (JVal.num 200)) k = dictGet d k := by
  refine ⟨?_, dictGet_dictSet_self d "code" (JVal.num 200),
    fun k hk => dictGet_dictSet_ne d "code" k (JVal.num 200) hk⟩
  unfold processMessage routePhase
  rw [hauth, htru, hfind,
    if_neg (show ¬(true = false) by decide), if_pos (show true = true from rfl)]
  dsimp only
  rw [hrun]
  dsimp only
  unfold sendPhase finalizeCode
  dsimp only
  rw [hcode, if_pos (show (false : Bool) = false from rfl), hser,
    if_pos (show (true : Bool) = true from rfl)]

/-- Witness for `C3_default_code`: the spec's round-trip scenario — secret
`"s3cr3t"`, endpoint `"ping"` returning `{"pong": true}` yields
`{"pong": true, "code": 200}`. -/
theorem C3_default_code_witness :
    authOk goodPingReq.headers (some "s3cr3t") = true ∧
    epLookup demoEndpoints (some (JVal.str "ping")) = some pingHandler ∧
    pingHandler [] = HRes.ok [("pong", JVal.bool true)] ∧
    optTruthy (dictGet [("pong", JVal.bool true)] "code") = false ∧
    (processMessage demoEndpoints (some "s3cr3t") goodPingReq).sent =
      [dictSet [("pong", JVal.bool true)] "code" (JVal.num 200)] ∧
    (processMessage demoEndpoints (some "s3cr3t") goodPingReq).sent =
      [[("pong", JVal.bool true), ("code", JVal.num 200)]] :=
  ⟨by decide, rfl, rfl, by decide,
   (C3_default_code demoEndpoints (some "s3cr3t") goodPingReq pingHandler
      [("pong", JVal.bool true)] (by decide) (by decide) rfl rfl (by decide) (by decide)).1,
   rfl⟩

/-- C6: an authenticated, routed request whose handler's (finalized)
response mapping is not serializable results in exactly one transmitted
message — the fallback `{error, code: 500}` — an error event, and a fatal
outcome that terminates the connection's message loop, so the following
messages of the connection are never processed; by contrast the 403, 400
and handler-exception outcomes are not fatal. -/
theorem C6_serialization_fatal (endpoints : Dict HandlerFn) (secret : Option String)
    (req : IpcRequest) (f : HandlerFn) (d : Dict JVal) (rest : List IpcRequest)
    (hauth : authOk req.headers secret = true)
    (htru : endpointTruthy req.endpoint = true)
    (hfind : epLookup endpoints req.endpoint = some f)
    (hrun : f req.data = HRes.ok d)
    (hser : dictSerializable (finalizeCode d) = false) :
    processMessage endpoints secret req =
      ⟨[[("error", JVal.str notSerializableText), ("code", JVal.num 500)]],
       [⟨req.endpoint, notSerializableText⟩], true, true⟩ ∧
    runLoop endpoints secret (req :: rest) = [processMessage endpoints secret req] ∧
    (∀ req2 : IpcRequest, authOk req2.headers secret = false →
      (processMessage endpoints secret req2).fatal = false) ∧
    (∀ req2 : IpcRequest, authOk req2.headers secret = true →
      (if endpointTruthy req2.endpoint then epLookup endpoints req2.endpoint
        else none) = none →
      (processMessage endpoints secret req2).fatal = false) ∧
    (∀ (req2 : IpcRequest) (g : HandlerFn) (m : String),
      authOk req2.headers secret = true → endpointTruthy req2.endpoint = true →
      epLookup endpoints req2.endpoint = some g → g req2.data = HRes.exn m →
      (processMessage endpoints secret req2).fatal = false) := by
  have hmain : processMessage endpoints secret req =
      ⟨[[("error", JVal.str notSerializableText), ("code", JVal.num 500)]],
       [⟨req.endpoint, notSerializableText⟩], true, true⟩ := by
    unfold processMessage routePhase
    rw [hauth, htru, hfind,
      if_neg (show ¬(true = false) by decide), if_pos (show true = true from rfl)]
    dsimp only
    rw [hrun]
    dsimp only
    unfold sendPhase
    dsimp only
    rw [hser, if_neg (show ¬((false : Bool) = true) by decide)]
    rfl
  refine ⟨hmain, ?_, ?_, ?_, ?_⟩
  · rw [runLoop, hmain]
    rfl
  · intro req2 h2
    unfold processMessage routePhase
    rw [h2]
    rfl
  · intro req2 h2 hroute
    unfold processMessage routePhase
    rw [h2, hroute]
    rfl
  · intro req2 g m h2 ht2 hf2 hr2
    unfold processMessage routePhase
    rw [h2, ht2, hf2,
      if_neg (show ¬(true = false) by decide), if_pos (show true = true from rfl)]
    dsimp only
    rw [hr2]
    rfl

/-- Witness for `C6_serialization_fatal`: the `"bad"` endpoint returning a
discord.py object, followed by a `"ping"` request that is never reached. -/
theorem C6_serialization_fatal_witness :
    authOk (some [("Authorization", JVal.str "s3cr3t")]) (some "s3cr3t") = true ∧
    epLookup demoEndpoints (some (JVal.str "bad")) = some badHandler ∧
    badHandler [] = HRes.ok [("obj", JVal.pyObj "discord.Member")] ∧
    dictSerializable (finalizeCode [("obj", JVal.pyObj "discord.Member")]) = false ∧
    (processMessage demoEndpoints (some "s3cr3t")
        ⟨some (.str "bad"), some [("Authorization", .str "s3cr3t")], []⟩ =
      ⟨[[("error", JVal.str notSerializableText), ("code", JVal.num 500)]],
       [⟨some (.str "bad"), notSerializableText⟩], true, true⟩) ∧
    runLoop demoEndpoints (some "s3cr3t")
        (⟨some (.str "bad"), some [("Authorization", .str "s3cr3t")], []⟩ :: [goodPingReq]) =
      [processMessage demoEndpoints (some "s3cr3t")
        ⟨some (.str "bad"), some [("Authorization", .str "s3cr3t")], []⟩] :=
  ⟨by decide, rfl, rfl, by decide,
   (C6_serialization_fatal demoEndpoints (some "s3cr3t")
      ⟨some (.str "bad"), some [("Authorization", .str "s3cr3t")], []⟩ badHandler
      [("obj", JVal.pyObj "discord.Member")] [goodPingReq]
      (by decide) (by decide) rfl rfl (by decide)).1,
   (C6_serialization_fatal demoEndpoints (some "s3cr3t")
      ⟨some (.str "bad"), some [("Authorization", .str "s3cr3t")], []⟩ badHandler
      [("obj", JVal.pyObj "discord.Member")] [goodPingReq]
      (by decide) (by decide) rfl rfl (by decide)).2.1⟩

/-! ## Claims about the discovery listener and the observation channel -/

/-- C7: an authenticated probe to the discovery listener is answered with
`{message: "Connection success", port: <primary port>, code: 200}`; an
unauthenticated probe is answered with code 403, an error string, and no
`port` key — the primary port is never revealed on failed
authentication. -/
theorem C7_multicast_discovery (secret : Option String) (port : Int)
    (headers : Option (Dict JVal)) :
    (authOk headers secret = true →
      handleMulticastMessage secret port headers =
        ([("message", JVal.str "Connection success"), ("port", JVal.num port),
          ("code", JVal.num 200)], [])) ∧
    (authOk headers secret = false →
      dictGet (handleMulticastMessage secret port headers).1 "code" =
        some (JVal.num 403) ∧
      dictGet (handleMulticastMessage secret port headers).1 "error" =
        some (JVal.str "Invalid or no token provided.") ∧
      dictGet (handleMulticastMessage secret port headers).1 "port" = none) := by
  constructor
  · intro h
    unfold handleMulticastMessage multicastReply
    rw [h]
    rfl
  · intro h
    unfold handleMulticastMessage multicastReply
    rw [h]
    exact ⟨rfl, rfl, rfl⟩

/-- Witness for `C7_multicast_discovery`: an authenticated and an
unauthenticated probe against secret `"s3cr3t"` and primary port 1010. -/
theorem C7_multicast_discovery_witness :
    authOk (some [("Authorization", JVal.str "s3cr3t")]) (some "s3cr3t") = true ∧
    handleMulticastMessage (some "s3cr3t") 1010
        (some [("Authorization", JVal.str "s3cr3t")]) =
      ([("message", JVal.str "Connection success"), ("port", JVal.num 1010),
        ("code", JVal.num 200)], []) ∧
    authOk (some [("Authorization", JVal.str "wrong")]) (some "s3cr3t") = false ∧
    dictGet (handleMulticastMessage (some "s3cr3t") 1010
        (some [("Authorization", JVal.str "wrong")])).1 "port" = none :=
  ⟨by decide,
   (C7_multicast_discovery (some "s3cr3t") 1010
      (some [("Authorization", JVal.str "s3cr3t")])).1 (by decide),
   by decide,
   ((C7_multicast_discovery (some "s3cr3t") 1010
      (some [("Authorization", JVal.str "wrong")])).2 (by decide)).2.2⟩

/-- C8 counterexample: a 403 on the discovery listener dispatches *no*
error event — `handle_multicast` contains no `self.bot.dispatch` call —
so the claim that every 403 "on either the primary listener or the
discovery listener" raises an error event is false. -/
theorem C8_counterexample :
    dictGet (handleMulticastMessage (some "s3cr3t") 1010
        (some [("Authorization", JVal.str "wrong")])).1 "code" = some (JVal.num 403) ∧
    (handleMulticastMessage (some "s3cr3t") 1010
        (some [("Authorization", JVal.str "wrong")])).2 = [] :=
  ⟨by decide, rfl⟩

/-- C8 (amended): on the primary listener, every 403, 400,
handler-exception and serialization failure dispatches exactly one
`ipc_error` event carrying the offending request's raw endpoint value and
a description; the discovery listener never dispatches an error event —
its 403 is only sent back to the client. -/
theorem C8_error_events (endpoints : Dict HandlerFn) (secret : Option String)
    (req : IpcRequest) :
    (authOk req.headers secret = false →
      (processMessage endpoints secret req).events =
        [⟨req.endpoint, unauthorizedDispatchText⟩]) ∧
    (authOk req.headers secret = true →
      (if endpointTruthy req.endpoint then epLookup endpoints req.endpoint
        else none) = none →
      (processMessage endpoints secret req).events =
        [⟨req.endpoint, invalidEndpointText⟩]) ∧
    (∀ (f : HandlerFn) (m : String), authOk req.headers secret = true →
      endpointTruthy req.endpoint = true →
      epLookup endpoints req.endpoint = some f → f req.data = HRes.exn m →
      (processMessage endpoints secret req).events = [⟨req.endpoint, m⟩]) ∧
    (∀ (f : HandlerFn) (d : Dict JVal), authOk req.headers secret = true →
      endpointTruthy req.endpoint = true →
      epLookup endpoints req.endpoint = some f → f req.data = HRes.ok d →
      dictSerializable (finalizeCode d) = false →
      (processMessage endpoints secret req).events =
        [⟨req.endpoint, notSerializableText⟩]) ∧
    (∀ (port : Int) (headers : Option (Dict JVal)),
      (handleMulticastMessage secret port headers).2 = []) := by
  refine ⟨?_, ?_, ?_, ?_, fun _ _ => rfl⟩
  · intro h
    unfold processMessage routePhase
    rw [h]
    rfl
  · intro h hroute
    unfold processMessage routePhase
    rw [h, hroute]
    rfl
  · intro f m h ht hf hr
    unfold processMessage routePhase
    rw [h, ht, hf,
      if_neg (show ¬(true = false) by decide), if_pos (show true = true from rfl)]
    dsimp only
    rw [hr]
    rfl
  · intro f d h ht hf hr hser
    unfold processMessage routePhase
    rw [h, ht, hf,
      if_neg (show ¬(true = false) by decide), if_pos (show true = true from rfl)]
    dsimp only
    rw [hr]
    dsimp only
    unfold sendPhase
    dsimp only
    rw [hser, if_neg (show ¬((false : Bool) = true) by decide)]
    rfl

/-- Witness for `C8_error_events`: the wrong-secret request dispatches the
unauthorized event on the primary listener. -/
theorem C8_error_events_witness :
    authOk wrongAuthReq.headers (some "s3cr3t") = false ∧
    (processMessage demoEndpoints (some "s3cr3t") wrongAuthReq).events =
      [⟨some (JVal.str "ping"), unauthorizedDispatchText⟩] :=
  ⟨by decide,
   (C8_error_events demoEndpoints (some "s3cr3t") wrongAuthReq).1 (by decide)⟩

/-! ## Claims about the lifecycle -/

/-- C10 counterexample: with multicasting enabled, after `start` both
`self._runner` and `self._webserver` point at the primary application
(each `setup` call overwrote them); `destroy` then touches no discovery
resource at all, and when `self._runner.cleanup()` raises, even the
primary webserver's stop is never attempted — so neither "releases the
primary ... and then the discovery listener's transport resources" nor
"each independently" holds. -/
theorem C10_counterexample :
    attrsAfterStart true = some Listener.primary ∧
    (destroy Listener.primary true false).1 =
      [ReleaseOp.cleanupRunner Listener.primary, ReleaseOp.stopWeb Listener.primary] ∧
    ReleaseOp.cleanupRunner Listener.discovery ∉ (destroy Listener.primary true false).1 ∧
    ReleaseOp.stopWeb Listener.discovery ∉ (destroy Listener.primary true false).1 ∧
    (destroy Listener.primary true true).1 = [ReleaseOp.cleanupRunner Listener.primary] ∧
    ReleaseOp.stopWeb Listener.primary ∉ (destroy Listener.primary true true).1 := by
  refine ⟨rfl, rfl, ?_, ?_, rfl, ?_⟩ <;> decide

/-- C10 (amended): `destroy` only ever releases resources of the single
listener the overwritten `_runner`/`_webserver` attributes refer to (after
`start` with tasks completing in creation order, the primary listener),
and an exception raised by the runner cleanup prevents the webserver stop
from being attempted. -/
theorem C10_destroy_single_listener (l : Listener) (web : Bool) :
    attrsAfterStart true = some Listener.primary ∧
    (∀ op ∈ (destroy l web false).1, op.listener = l) ∧
    (∀ op ∈ (destroy l web true).1, op.listener = l) ∧
    (destroy l web true).1 = [ReleaseOp.cleanupRunner l] ∧
    ReleaseOp.stopWeb l ∉ (destroy l web true).1 := by
  refine ⟨rfl, ?_, ?_, rfl, ?_⟩
  · intro op hop
    cases web with
    | false =>
        simp [destroy] at hop
        subst hop
        rfl
    | true =>
        simp [destroy] at hop
        rcases hop with h | h
        · subst h; rfl
        · subst h; rfl
  · intro op hop
    simp [destroy] at hop
    subst hop
    rfl
  · simp [destroy]

/-- Witness for `C10_destroy_single_listener` at the primary listener with
the webserver attribute set. -/
theorem C10_destroy_single_listener_witness :
    ReleaseOp.cleanupRunner Listener.primary ∈ (destroy Listener.primary true false).1 ∧
    (ReleaseOp.cleanupRunner Listener.primary).listener = Listener.primary :=
  ⟨by decide,
   (C10_destroy_single_listener Listener.primary true).2.1
     (ReleaseOp.cleanupRunner Listener.primary) (by decide)⟩
